import Mathlib

/-!
Verification of the automated-email-triage pipeline.

Shallow embedding of the repository's Python sources:
`gemini_service.py`, `ebay_service.py`, `gmail_service.py`,
`telegram_service.py`, `processing_service.py`.

External network interactions (HTTP calls to the LLM endpoint, the
marketplace OAuth/search endpoints, the mailbox provider and the chat
bot) are modelled as oracle inputs; each embedded function additionally
reports which network calls it issued, so that "no network call"
properties are statable.

Python string operations (`strip`, `upper`, `startswith`, …) are
embedded as executable character-list functions (`pyStrip`, `pyUpper`,
`pyStartswith`, …).  `pyUpper` implements the Unicode simple uppercase
map on the ASCII and Latin-1 ranges — in particular `ó` (U+00F3)
uppercases to `Ó` (U+00D3) as in Python — and leaves other code points
unchanged; the only characters whose Python uppercase is `C` or `Ó`
are `c` and `ó`, so the embedded affirmative-token check of
`evaluate_knowledge_relevance` accepts exactly the responses the
source's `.strip().upper().startswith("CÓ")` accepts.
-/

/-- Python `str.strip()`: drop leading and trailing whitespace. -/
def pyStrip (s : String) : String :=
  String.mk (((s.toList.dropWhile Char.isWhitespace).reverse.dropWhile Char.isWhitespace).reverse)

/-- Python `str.upper()` on one character: the Unicode simple
uppercase map on the ASCII and Latin-1 ranges (`a`-`z` and `à`-`þ`
except `÷` shift down by 0x20; `ÿ` maps to `Ÿ`, the micro sign to the
Greek capital Mu); other code points are unchanged.  `ß`, which Python
expands to the two-character `"SS"`, has no character-to-character
image and is left as is; no compared token in this development
contains it. -/
def pyUpperChar (c : Char) : Char :=
  let n := c.toNat
  if 0x61 ≤ n ∧ n ≤ 0x7a then Char.ofNat (n - 0x20)
  else if 0xe0 ≤ n ∧ n ≤ 0xfe ∧ n ≠ 0xf7 then Char.ofNat (n - 0x20)
  else if n = 0xff then Char.ofNat 0x178
  else if n = 0xb5 then Char.ofNat 0x39c
  else c

/-- Python `str.upper()`. -/
def pyUpper (s : String) : String :=
  String.mk (s.toList.map pyUpperChar)

/-- Python `str.startswith(pre)`. -/
def pyStartswith (s pre : String) : Bool :=
  pre.toList.isPrefixOf s.toList

/-- Python `str.endswith(suf)`. -/
def pyEndswith (s suf : String) : Bool :=
  suf.toList.isSuffixOf s.toList

/-- Python `s[n:]`. -/
def pyDrop (s : String) (n : Nat) : String :=
  String.mk (s.toList.drop n)

/-- Python `s[:-n]` (for `n` ≤ length). -/
def pyDropRight (s : String) (n : Nat) : String :=
  String.mk (s.toList.take (s.toList.length - n))

/-! ## `gemini_service.py` — the retryable LLM caller `_call_gemini_api` -/

/-- A provider response object as observed by `_call_gemini_api`:
`parts` is the number of elements of `response.parts` (Python truthiness
of `response.parts` is `parts ≠ 0`), `blocked` is the truthiness of
`response.prompt_feedback and response.prompt_feedback.block_reason`,
and `text` is `response.text`. -/
structure GeminiResponse where
  parts : Nat
  blocked : Bool
  text : String
deriving DecidableEq, Repr

/-- Outcome of one `model.generate_content(prompt)` attempt:
either an exception (`err`) or a returned response object. -/
inductive AttemptResult where
  | err
  | ok (resp : GeminiResponse)
deriving DecidableEq, Repr

/-- The retry loop of `_call_gemini_api` (lines 34-61 of
`gemini_service.py`).  `oracle i` is the result of the `i`-th network
attempt, `remaining = max_retries - retries`, `delay` the current
backoff, `sleeps` the delays slept so far.  Returns the function's
result together with the number of network attempts issued and the
list of sleeps performed. -/
def callGeminiAux (oracle : Nat → AttemptResult) :
    Nat → Nat → Nat → List Nat → Option GeminiResponse × Nat × List Nat
  | idx, 0, _, sleeps => (none, idx, sleeps)
  | idx, r + 1, delay, sleeps =>
    match oracle idx with
    | .ok resp =>
      if resp.parts = 0 ∧ resp.blocked = true then (none, idx + 1, sleeps)
      else (some resp, idx + 1, sleeps)
    | .err =>
      if r = 0 then (none, idx + 1, sleeps)
      else callGeminiAux oracle (idx + 1) r (delay * 2) (sleeps ++ [delay])

/-- `_call_gemini_api(model, prompt, max_retries, delay)`
(`gemini_service.py` lines 29-61).  `modelInit` is whether the model
reference is initialized (`model is None` check); the prompt itself is
abstracted into the `oracle` describing the provider's behaviour.
Result: `(returned value, number of network calls, sleeps performed)`. -/
def call_gemini_api (modelInit : Bool) (oracle : Nat → AttemptResult)
    (max_retries delay : Nat) : Option GeminiResponse × Nat × List Nat :=
  if modelInit then callGeminiAux oracle 0 max_retries delay []
  else (none, 0, [])

/-- The exponential-backoff sleep schedule: `n` sleeps starting at
`delay` and doubling each time. -/
def backoffSleeps (delay n : Nat) : List Nat :=
  (List.range n).map (fun i => delay * 2 ^ i)

/-! ## `gemini_service.py` — `classify_email` (lines 65-108) -/

/-- `classify_email(subject, body)` after the prompt is built: the call
to `_call_gemini_api(classification_model, prompt)` is abstracted by
`modelInit`/`oracle`; the subsequent parsing follows lines 94-108. -/
def classify_email (modelInit : Bool) (oracle : Nat → AttemptResult) : Option String :=
  match (call_gemini_api modelInit oracle 3 5).1 with
  | some resp =>
    if resp.parts ≠ 0 then
      let classification := pyUpper (pyStrip resp.text)
      if classification = "SPAM" ∨ classification = "PROCESS" then some classification
      else some "PROCESS"
    else none
  | none => none

/-! ## Theorems for the LLM caller and classifier -/

/-- C4: a provider response reported as blocked (no parts, a block
reason present) on the first attempt makes `_call_gemini_api` return
`None` at once: exactly one network call, no sleeps. -/
theorem call_gemini_api_blocked_no_retry (oracle : Nat → AttemptResult)
    (max_retries delay : Nat) (resp : GeminiResponse)
    (h0 : oracle 0 = .ok resp) (hp : resp.parts = 0) (hb : resp.blocked = true)
    (hm : 1 ≤ max_retries) :
    call_gemini_api true oracle max_retries delay = (none, 1, []) := by
  obtain ⟨m, rfl⟩ : ∃ m, max_retries = m + 1 :=
    ⟨max_retries - 1, (Nat.succ_pred_eq_of_pos hm).symm⟩
  simp [call_gemini_api, callGeminiAux, h0, hp, hb]

/-- Closed instance of C4 at a concrete blocked response. -/
theorem call_gemini_api_blocked_no_retry_witness :
    (fun _ => AttemptResult.ok ⟨0, true, ""⟩) 0 = AttemptResult.ok ⟨0, true, ""⟩ ∧
    call_gemini_api true (fun _ => AttemptResult.ok ⟨0, true, ""⟩) 3 5 = (none, 1, []) :=
  ⟨rfl, call_gemini_api_blocked_no_retry _ 3 5 ⟨0, true, ""⟩ rfl rfl rfl (by decide)⟩

theorem backoffSleeps_succ (delay n : Nat) :
    backoffSleeps delay (n + 1) = delay :: backoffSleeps (delay * 2) n := by
  simp only [backoffSleeps, List.range_succ_eq_map, List.map_cons, List.map_map,
    pow_zero, mul_one]
  refine congrArg _ (List.map_congr_left fun a _ => ?_)
  simp only [Function.comp_apply, Nat.succ_eq_add_one, pow_succ]
  ring

theorem callGeminiAux_all_err (oracle : Nat → AttemptResult)
    (h : ∀ i, oracle i = .err) :
    ∀ (r idx delay : Nat) (sleeps : List Nat),
      callGeminiAux oracle idx r delay sleeps =
        (none, idx + r, sleeps ++ backoffSleeps delay (r - 1)) := by
  intro r
  induction r with
  | zero => intro idx delay sleeps; simp [callGeminiAux, backoffSleeps]
  | succ r ih =>
    intro idx delay sleeps
    simp only [Nat.add_sub_cancel]
    cases r with
    | zero =>
      rw [callGeminiAux, h idx]
      simp [backoffSleeps]
    | succ r' =>
      have step : callGeminiAux oracle idx (r' + 1 + 1) delay sleeps =
          callGeminiAux oracle (idx + 1) (r' + 1) (delay * 2) (sleeps ++ [delay]) := by
        rw [callGeminiAux, h idx]
        simp
      rw [step, ih (idx + 1) (delay * 2) (sleeps ++ [delay])]
      simp only [Nat.add_sub_cancel]
      have h1 : idx + 1 + (r' + 1) = idx + (r' + 1 + 1) := by omega
      have h2 : sleeps ++ [delay] ++ backoffSleeps (delay * 2) r' =
          sleeps ++ backoffSleeps delay (r' + 1) := by
        rw [backoffSleeps_succ, List.append_assoc]
        rfl
      rw [h1, h2]

/-- C5: if every network attempt raises, `_call_gemini_api` makes
exactly `max_retries` attempts (hence at most that many), sleeps the
exponential-backoff schedule starting at `delay` and doubling after
each failed attempt, and returns `None`. -/
theorem call_gemini_api_all_errors (oracle : Nat → AttemptResult)
    (max_retries delay : Nat) (h : ∀ i, oracle i = .err) :
    call_gemini_api true oracle max_retries delay =
      (none, max_retries, backoffSleeps delay (max_retries - 1)) := by
  simp [call_gemini_api, callGeminiAux_all_err oracle h]

/-- Closed instance of C5 at the defaults (3 attempts, base delay 5):
result `None`, 3 attempts, sleeps `[5, 10]`. -/
theorem call_gemini_api_all_errors_witness :
    call_gemini_api true (fun _ => AttemptResult.err) 3 5 = (none, 3, [5, 10]) := by
  rw [call_gemini_api_all_errors (fun _ => AttemptResult.err) 3 5 (fun _ => rfl)]
  decide

/-- C6: when the LLM call yields a response with parts, `classify_email`
returns exactly the stripped, upper-cased text when that is `SPAM` or
`PROCESS`, and coerces every other text to `PROCESS`. -/
theorem classify_email_coercion (modelInit : Bool) (oracle : Nat → AttemptResult)
    (resp : GeminiResponse)
    (hcall : (call_gemini_api modelInit oracle 3 5).1 = some resp)
    (hp : resp.parts ≠ 0) :
    (pyUpper (pyStrip resp.text) ≠ "SPAM" → pyUpper (pyStrip resp.text) ≠ "PROCESS" →
      classify_email modelInit oracle = some "PROCESS") ∧
    (pyUpper (pyStrip resp.text) = "SPAM" ∨ pyUpper (pyStrip resp.text) = "PROCESS" →
      classify_email modelInit oracle = some (pyUpper (pyStrip resp.text))) := by
  constructor
  · intro h1 h2
    simp [classify_email, hcall, hp, h1, h2]
  · intro h
    simp [classify_email, hcall, hp, h]

/-- Closed instance of C6: a successful response reading `" maybe "`
is coerced to `PROCESS`; one reading `"spam"` comes back as `SPAM`. -/
theorem classify_email_coercion_witness :
    classify_email true (fun _ => AttemptResult.ok ⟨1, false, " maybe "⟩) = some "PROCESS" ∧
    classify_email true (fun _ => AttemptResult.ok ⟨1, false, "spam"⟩) = some "SPAM" :=
  ⟨(classify_email_coercion true (fun _ => AttemptResult.ok ⟨1, false, " maybe "⟩)
      ⟨1, false, " maybe "⟩ rfl (by decide)).1 (by decide) (by decide),
   by
    have := (classify_email_coercion true (fun _ => AttemptResult.ok ⟨1, false, "spam"⟩)
      ⟨1, false, "spam"⟩ rfl (by decide)).2 (Or.inl (by decide))
    rw [this]
    decide⟩

/-! ## `gemini_service.py` — `generate_ebay_search_params` (lines 295-396) -/

/-- A JSON parameter value as produced by the model for the search
parameter dictionary: a string, an integer, or an array of strings. -/
inductive ParamVal where
  | str (s : String)
  | nat (n : Nat)
  | arr (a : List String)
deriving DecidableEq, Repr

/-- A parsed parameter dictionary, as an insertion-ordered
key-value list. -/
abbrev Params := List (String × ParamVal)

/-- Python `key in params` on a dict. -/
def hasKey (params : Params) (k : String) : Bool :=
  params.any (fun kv => kv.1 == k)

/-- Markdown code-fence stripping (`gemini_service.py` lines 375-378):
drop a leading "```json" and a trailing "```", re-stripping after each. -/
def stripCodeFences (s : String) : String :=
  let s1 := if pyStartswith s "```json" then pyStrip (pyDrop s 7) else s
  if pyEndswith s1 "```" then pyStrip (pyDropRight s1 3) else s1

/-- The recognized non-keyword parameter names listed in the validation
at `gemini_service.py` line 384. -/
def ebayParamKeys : List String :=
  ["gtin", "charity_ids", "fieldgroups", "compatibility_filter", "auto_correct",
   "category_ids", "filter", "sort", "limit", "offset", "aspect_filter", "epid"]

/-- The validation of the parsed parameters (`gemini_service.py`
lines 383-387): returns `None` when the dictionary is non-empty, lacks
`q`, and contains at least one of the recognized parameter names;
otherwise it returns the dictionary unchanged. -/
def validateParams (params : Params) : Option Params :=
  if params.isEmpty = false ∧ hasKey params "q" = false ∧
      ebayParamKeys.any (fun k => hasKey params k) = true then none
  else some params

/-- `generate_ebay_search_params(email_body)` (`gemini_service.py`
lines 295-396).  The LLM call is abstracted by `modelInit`/`oracle`
as in `call_gemini_api`; `parse` abstracts `json.loads`, returning
`none` on a decode error and the parsed dictionary otherwise. -/
def generate_ebay_search_params (email_body : String) (modelInit : Bool)
    (oracle : Nat → AttemptResult) (parse : String → Option Params) : Option Params :=
  if email_body = "" then none
  else
    match (call_gemini_api modelInit oracle 3 5).1 with
    | some resp =>
      if resp.parts ≠ 0 then
        match parse (stripCodeFences (pyStrip resp.text)) with
        | some params => validateParams params
        | none => none
      else none
    | none => none

/-- A model response whose text is a JSON object with the single
unrecognized key `"foo"`, plus the corresponding parse oracle. -/
def fooResponseOracle : Nat → AttemptResult :=
  fun _ => AttemptResult.ok ⟨1, false, "\x7b\"foo\": \"bar\"\x7d"⟩

def fooParse : String → Option Params :=
  fun _ => some [("foo", ParamVal.str "bar")]

/-- Counterexample to C2 as stated: a parsed structure containing only
the unrecognized key `"foo"` and no `"q"` is returned unchanged, not
discarded as `None`. -/
theorem generate_ebay_search_params_unknown_key_counterexample :
    hasKey [("foo", ParamVal.str "bar")] "q" = false ∧
    [("foo", ParamVal.str "bar")] ≠ ([] : Params) ∧
    generate_ebay_search_params "body" true fooResponseOracle fooParse =
      some [("foo", ParamVal.str "bar")] := by
  refine ⟨by decide, by decide, ?_⟩
  decide

/-- C2 (amended): for a successful parse that omits `q` but contains at
least one of the recognized parameter names, the result is `None`. -/
theorem generate_ebay_search_params_known_key_guard (email_body : String)
    (modelInit : Bool) (oracle : Nat → AttemptResult) (parse : String → Option Params)
    (resp : GeminiResponse) (params : Params)
    (hbody : email_body ≠ "")
    (hcall : (call_gemini_api modelInit oracle 3 5).1 = some resp)
    (hp : resp.parts ≠ 0)
    (hparse : parse (stripCodeFences (pyStrip resp.text)) = some params)
    (hq : hasKey params "q" = false)
    (hk : ebayParamKeys.any (fun k => hasKey params k) = true) :
    generate_ebay_search_params email_body modelInit oracle parse = none := by
  have hne : params.isEmpty = false := by
    cases params with
    | nil => simp [hasKey] at hk
    | cons a l => rfl
  simp [generate_ebay_search_params, hbody, hcall, hp, hparse, validateParams, hne, hq, hk]

/-- Closed instance of the amended C2: `{"filter": [...]}` with no `q`
yields `None`. -/
theorem generate_ebay_search_params_known_key_guard_witness :
    generate_ebay_search_params "body" true fooResponseOracle
      (fun _ => some [("filter", ParamVal.arr ["price:[10..50]"])]) = none :=
  generate_ebay_search_params_known_key_guard "body" true fooResponseOracle
    (fun _ => some [("filter", ParamVal.arr ["price:[10..50]"])])
    ⟨1, false, "\x7b\"foo\": \"bar\"\x7d"⟩ [("filter", ParamVal.arr ["price:[10..50]"])]
    (by decide) rfl (by decide) rfl (by decide) (by decide)

/-! ## `gemini_service.py` — `evaluate_knowledge_relevance` (lines 159-219) -/

/-- A normalized eBay item record as built by `search_ebay_items`
(`ebay_service.py` lines 150-158). -/
structure CatalogItem where
  title : String
  itemId : String
  itemWebUrl : String
  price : String
  currency : String
  condition : String
deriving DecidableEq, Repr

/-- `evaluate_knowledge_relevance(original_body, relevant_knowledge)`
(`gemini_service.py` lines 159-219).  Returns the boolean judgment
together with the number of LLM-caller invocations performed (0 or 1).
The affirmative check is `evaluation.startswith("CÓ")` on the stripped,
upper-cased response text. -/
def evaluate_knowledge_relevance (modelInit : Bool) (oracle : Nat → AttemptResult)
    (relevant_knowledge : List CatalogItem) : Bool × Nat :=
  if relevant_knowledge.isEmpty then (false, 0)
  else
    match (call_gemini_api modelInit oracle 3 5).1 with
    | some resp =>
      if resp.parts ≠ 0 then (pyStartswith (pyUpper (pyStrip resp.text)) "CÓ", 1)
      else (false, 1)
    | none => (false, 1)

/-- C8: the empty item list yields `false` with no LLM invocation; for
a non-empty list the result is `true` exactly when the LLM call
returned a response with parts whose stripped upper-cased text starts
with the affirmative token `CÓ`. -/
theorem evaluate_knowledge_relevance_spec (modelInit : Bool)
    (oracle : Nat → AttemptResult) (relevant_knowledge : List CatalogItem) :
    evaluate_knowledge_relevance modelInit oracle [] = (false, 0) ∧
    (relevant_knowledge ≠ [] →
      ((evaluate_knowledge_relevance modelInit oracle relevant_knowledge).1 = true ↔
        ∃ resp, (call_gemini_api modelInit oracle 3 5).1 = some resp ∧
          resp.parts ≠ 0 ∧ pyStartswith (pyUpper (pyStrip resp.text)) "CÓ" = true)) := by
  constructor
  · rfl
  · intro hne
    have hne' : relevant_knowledge.isEmpty = false := by
      cases relevant_knowledge with
      | nil => exact absurd rfl hne
      | cons a l => rfl
    constructor
    · intro h
      rcases hc : (call_gemini_api modelInit oracle 3 5).1 with _ | resp
      · rw [evaluate_knowledge_relevance, if_neg (by simp [hne']), hc] at h
        simp at h
      · refine ⟨resp, rfl, ?_⟩
        rw [evaluate_knowledge_relevance, if_neg (by simp [hne']), hc] at h
        by_cases hp : resp.parts = 0
        · simp [hp] at h
        · simp only [hp, if_true, ne_eq, not_false_iff, if_pos] at h
          exact ⟨hp, by simpa using h⟩
    · rintro ⟨resp, hc, hp, hs⟩
      rw [evaluate_knowledge_relevance, if_neg (by simp [hne']), hc]
      simp [hp, hs]

/-- A sample normalized item used in concrete instances. -/
def sampleItem : CatalogItem :=
  ⟨"ThinkPad T470", "v1|123|0", "https://ebay.example/item", "199.99", "USD", "USED"⟩

/-- Closed instance of C8: a sentence-case affirmative `"Có, đủ"`
response (upper-cased by the embedding to a `CÓ`-prefixed text, as
Python's `upper` does) on a one-item list yields `true`, and the
empty list yields `(false, 0)`. -/
theorem evaluate_knowledge_relevance_spec_witness :
    evaluate_knowledge_relevance true (fun _ => AttemptResult.ok ⟨1, false, "Có, đủ"⟩) []
      = (false, 0) ∧
    (evaluate_knowledge_relevance true (fun _ => AttemptResult.ok ⟨1, false, "Có, đủ"⟩)
      [sampleItem]).1 = true :=
  ⟨(evaluate_knowledge_relevance_spec true (fun _ => AttemptResult.ok ⟨1, false, "Có, đủ"⟩)
      [sampleItem]).1,
   ((evaluate_knowledge_relevance_spec true (fun _ => AttemptResult.ok ⟨1, false, "Có, đủ"⟩)
      [sampleItem]).2 (by simp)).mpr
     ⟨⟨1, false, "Có, đủ"⟩, rfl, by decide, by decide⟩⟩

/-! ## `ebay_service.py` — OAuth token and item search -/

/-- The network calls `ebay_service.py` can issue. -/
inductive NetCall where
  | tokenPost
  | searchGet
deriving DecidableEq, Repr

/-- Result of the OAuth token POST (`ebay_service.py` lines 57-86):
`exn` for any `requests.exceptions.RequestException` (transport error,
bad HTTP status via `raise_for_status`, JSON decode error), `success`
for a parsed body whose `access_token` may be absent. -/
inductive TokenHttp where
  | exn
  | success (accessToken : Option String) (expiresIn : Nat)
deriving DecidableEq, Repr

/-- A raw item summary from the search response; absent fields are
`none` (Python `dict.get` misses). -/
structure RawItem where
  title : Option String
  itemId : Option String
  itemWebUrl : Option String
  priceValue : Option String
  priceCurrency : Option String
  condition : Option String
deriving DecidableEq, Repr

/-- Result of the search GET (`ebay_service.py` lines 135-171):
`reqExn` for a `requests.exceptions.RequestException`, `otherExn` for
any other exception, `success` for a parsed body with its (possibly
empty) `itemSummaries` list. -/
inductive SearchHttp where
  | reqExn
  | otherExn
  | success (raw : List RawItem)
deriving DecidableEq, Repr

/-- Ambient state for `ebay_service`: module-level token cache,
configuration, and the behaviour of the two HTTP endpoints.
`cachedValid` is the truthiness of
`oauth_token and time.time() < token_expiry_time`. -/
structure EbayEnv where
  cachedValid : Bool
  cachedToken : String
  clientIdSet : Bool
  clientSecretSet : Bool
  envValid : Bool
  tokenHttp : TokenHttp
  searchHttp : SearchHttp
deriving DecidableEq, Repr

/-- `get_oauth_token()` (`ebay_service.py` lines 26-86).  Returns the
token (or `None`) and the network calls issued. -/
def get_oauth_token (env : EbayEnv) : Option String × List NetCall :=
  if env.cachedValid then (some env.cachedToken, [])
  else if env.clientIdSet = false ∨ env.clientSecretSet = false then (none, [])
  else if env.envValid = false then (none, [])
  else
    match env.tokenHttp with
    | .exn => (none, [.tokenPost])
    | .success accessToken _ => (accessToken, [.tokenPost])

/-- Normalization of one raw item into the uniform record
(`ebay_service.py` lines 150-158): absent fields become `"N/A"`. -/
def normalizeItem (r : RawItem) : CatalogItem :=
  ⟨r.title.getD "N/A", r.itemId.getD "N/A", r.itemWebUrl.getD "N/A",
   r.priceValue.getD "N/A", r.priceCurrency.getD "N/A", r.condition.getD "N/A"⟩

/-- Result of `search_ebay_items`: the returned item list, the network
calls issued, and the final state of the caller's parameter dictionary
(the function mutates it in place at line 128). -/
structure SearchOutcome where
  items : List CatalogItem
  calls : List NetCall
  finalParams : Params
deriving DecidableEq, Repr

/-- `search_ebay_items(query)` with a parameter dictionary
(`ebay_service.py` lines 88-171). -/
def search_ebay_items (env : EbayEnv) (params : Params) : SearchOutcome :=
  let t := get_oauth_token env
  match t.1 with
  | none => ⟨[], t.2, params⟩
  | some _ =>
    if env.envValid = false then ⟨[], t.2, params⟩
    else if hasKey params "q" = false then ⟨[], t.2, params⟩
    else
      let params' := if hasKey params "limit" then params
        else params ++ [("limit", ParamVal.nat 50)]
      match env.searchHttp with
      | .reqExn => ⟨[], t.2 ++ [.searchGet], params'⟩
      | .otherExn => ⟨[], t.2 ++ [.searchGet], params'⟩
      | .success raw => ⟨raw.map normalizeItem, t.2 ++ [.searchGet], params'⟩

/-- An environment with no cached token, configured credentials, a
valid environment, and working endpoints. -/
def freshEbayEnv : EbayEnv :=
  ⟨false, "", true, true, true, .success (some "tok") 7200, .success []⟩

/-- Counterexample to C3 as stated: with no cached token and configured
credentials, a search on a dictionary lacking `q` still issues the
OAuth token-endpoint network call (the token is fetched before the
keyword check), even though the result is the empty list. -/
theorem search_ebay_items_no_q_counterexample :
    hasKey ([] : Params) "q" = false ∧
    (search_ebay_items freshEbayEnv []).items = [] ∧
    (search_ebay_items freshEbayEnv []).calls = [NetCall.tokenPost] := by
  refine ⟨rfl, ?_, ?_⟩ <;> decide

/-- C3 (amended): a parameter dictionary lacking `q` yields the empty
list and never issues the search network call (token-endpoint traffic
may still occur). -/
theorem search_ebay_items_no_q (env : EbayEnv) (params : Params)
    (hq : hasKey params "q" = false) :
    (search_ebay_items env params).items = [] ∧
    NetCall.searchGet ∉ (search_ebay_items env params).calls := by
  have hmain : search_ebay_items env params =
      ⟨[], (get_oauth_token env).2, params⟩ := by
    rcases env with ⟨cv, ct, cid, cs, ev, th, sh⟩
    cases cv <;> cases cid <;> cases cs <;> cases ev <;> cases th <;>
      simp [get_oauth_token, search_ebay_items, hq]
    split <;> rfl
  have hcalls : NetCall.searchGet ∉ (get_oauth_token env).2 := by
    rcases env with ⟨cv, ct, cid, cs, ev, th, sh⟩
    cases cv <;> cases cid <;> cases cs <;> cases ev <;> cases th <;>
      simp [get_oauth_token]
  rw [hmain]
  exact ⟨rfl, hcalls⟩

/-- Closed instance of the amended C3: no `q` key gives an empty result
and no search call. -/
theorem search_ebay_items_no_q_witness :
    hasKey [("filter", ParamVal.arr ["conditions:NEW"])] "q" = false ∧
    (search_ebay_items freshEbayEnv [("filter", ParamVal.arr ["conditions:NEW"])]).items = [] ∧
    NetCall.searchGet ∉
      (search_ebay_items freshEbayEnv [("filter", ParamVal.arr ["conditions:NEW"])]).calls :=
  ⟨by decide,
   (search_ebay_items_no_q freshEbayEnv [("filter", ParamVal.arr ["conditions:NEW"])]
      (by decide)).1,
   (search_ebay_items_no_q freshEbayEnv [("filter", ParamVal.arr ["conditions:NEW"])]
      (by decide)).2⟩

/-- C7: `search_ebay_items` degrades every modelled failure to the
empty list — token acquisition failure, an invalid environment
configuration, a transport/HTTP error on the search call, and any
other exception during the search call (the embedding is a total
function, so no fault propagates to the caller). -/
theorem search_ebay_items_never_raises (env : EbayEnv) (params : Params) :
    ((get_oauth_token env).1 = none → (search_ebay_items env params).items = []) ∧
    (env.envValid = false → (search_ebay_items env params).items = []) ∧
    (env.searchHttp = SearchHttp.reqExn → (search_ebay_items env params).items = []) ∧
    (env.searchHttp = SearchHttp.otherExn → (search_ebay_items env params).items = []) := by
  rcases env with ⟨cv, ct, cid, cs, ev, th, sh⟩
  refine ⟨fun h1 => ?_, fun h2 => ?_, fun h3 => ?_, fun h4 => ?_⟩
  · cases cv <;> cases cid <;> cases cs <;> cases ev <;> cases th <;>
      simp_all [get_oauth_token, search_ebay_items]
  · subst h2
    cases cv <;> cases cid <;> cases cs <;> cases th <;>
      simp [get_oauth_token, search_ebay_items]
  · subst h3
    cases cv <;> cases cid <;> cases cs <;> cases ev <;> cases th <;>
      simp [get_oauth_token, search_ebay_items] <;>
      (try (split <;> (try split) <;> simp))
  · subst h4
    cases cv <;> cases cid <;> cases cs <;> cases ev <;> cases th <;>
      simp [get_oauth_token, search_ebay_items] <;>
      (try (split <;> (try split) <;> simp))

/-- Closed instance of C7: a transport error on the search call yields
the empty list. -/
theorem search_ebay_items_never_raises_witness :
    (⟨false, "", true, true, true, TokenHttp.success (some "tok") 7200,
        SearchHttp.reqExn⟩ : EbayEnv).searchHttp = SearchHttp.reqExn ∧
    (search_ebay_items
      ⟨false, "", true, true, true, TokenHttp.success (some "tok") 7200, SearchHttp.reqExn⟩
      [("q", ParamVal.str "thinkpad")]).items = [] :=
  ⟨rfl,
   (search_ebay_items_never_raises
      ⟨false, "", true, true, true, TokenHttp.success (some "tok") 7200, SearchHttp.reqExn⟩
      [("q", ParamVal.str "thinkpad")]).2.2.1 rfl⟩

/-- C9: if the module-level cache invariant holds (a cached token is
only ever stored while the configured environment is valid), the OAuth
token is obtained, and the caller's dictionary has `q` but no `limit`,
then `search_ebay_items` stores `limit = 50` into the caller's
dictionary, so the dictionary observed after the call differs from the
one passed in. -/
theorem search_ebay_items_inserts_limit (env : EbayEnv) (params : Params)
    (hreach : env.cachedValid = true → env.envValid = true)
    (htok : (get_oauth_token env).1.isSome = true)
    (hq : hasKey params "q" = true)
    (hlim : hasKey params "limit" = false) :
    (search_ebay_items env params).finalParams = params ++ [("limit", ParamVal.nat 50)] ∧
    (search_ebay_items env params).finalParams ≠ params := by
  have hev : env.envValid = true := by
    rcases env with ⟨cv, ct, cid, cs, ev, th, sh⟩
    cases cv
    · cases cid <;> cases cs <;> cases ev <;> cases th <;>
        simp_all [get_oauth_token]
    · exact hreach rfl
  have hmain : (search_ebay_items env params).finalParams =
      params ++ [("limit", ParamVal.nat 50)] := by
    rcases env with ⟨cv, ct, cid, cs, ev, th, sh⟩
    subst hev
    cases cv <;> cases cid <;> cases cs <;> cases th <;> cases sh <;>
      simp_all [get_oauth_token, search_ebay_items, hq, hlim] <;>
      (try (split <;> simp_all))
  refine ⟨hmain, ?_⟩
  rw [hmain]
  intro hcontra
  have := congrArg List.length hcontra
  simp at this

/-- Closed instance of C9: a fresh environment and `{q: "thinkpad"}`
end with `limit = 50` appended to the caller's dictionary. -/
theorem search_ebay_items_inserts_limit_witness :
    (freshEbayEnv.cachedValid = true → freshEbayEnv.envValid = true) ∧
    (get_oauth_token freshEbayEnv).1.isSome = true ∧
    (search_ebay_items freshEbayEnv [("q", ParamVal.str "thinkpad")]).finalParams =
      [("q", ParamVal.str "thinkpad"), ("limit", ParamVal.nat 50)] :=
  ⟨fun _ => rfl,
   by decide,
   by
    have := (search_ebay_items_inserts_limit freshEbayEnv [("q", ParamVal.str "thinkpad")]
      (fun _ => rfl) (by decide) (by decide) (by decide)).1
    rw [this]
    rfl⟩

/-! ## `gmail_service.py` — `send_reply` (lines 220-271) -/

/-- The email-details record built by `get_email_details`
(`gmail_service.py` lines 136-207).  `sender`, `subject` and
`message_id_header` stay `None` when the corresponding header is
absent; `body` is always a string (line 201 replaces `None` by `""`). -/
structure EmailDetails where
  message_id : String
  thread_id : Option String
  sender : Option String
  subject : Option String
  body : String
  message_id_header : Option String
deriving DecidableEq, Repr

/-- Python truthiness of an optional string: `None` and `""` are falsy. -/
def truthy : Option String → Bool
  | none => false
  | some s => !(s == "")

/-- The recipient extraction of `send_reply` (`gmail_service.py`
lines 239-242): take the text between the first `<` and the first `>`
when both occur, else the raw sender string. -/
def extractSenderEmail (s : String) : String :=
  let cs := s.toList
  if cs.contains '<' ∧ cs.contains '>' then
    String.mk ((cs.take (cs.findIdx (· = '>'))).drop (cs.findIdx (· = '<') + 1))
  else s

/-- Behaviour of the `messages().send().execute()` call: an exception
(`HttpError` or other) or success. -/
inductive SendHttp where
  | exn
  | success
deriving DecidableEq, Repr

/-- Result of `send_reply`: the returned boolean, the number of send
network calls attempted, and the recipient computed for the message
(`none` when the function bails out before building it). -/
structure SendOutcome where
  ok : Bool
  attempts : Nat
  toAddr : Option String
deriving DecidableEq, Repr

/-- `send_reply(service, original_email_data, reply_body)`
(`gmail_service.py` lines 220-271). -/
def send_reply (original_email_data : EmailDetails) (http : SendHttp) : SendOutcome :=
  if truthy original_email_data.sender = false then ⟨false, 0, none⟩
  else if truthy original_email_data.message_id_header = false then ⟨false, 0, none⟩
  else
    let toAddr := extractSenderEmail (original_email_data.sender.getD "")
    match http with
    | .exn => ⟨false, 1, some toAddr⟩
    | .success => ⟨true, 1, some toAddr⟩

/-- C10: a falsy sender or a falsy provider Message-ID header makes
`send_reply` return `False` with no send attempted; when both are
present, the send is attempted (one network call) whether or not
`thread_id` is present, so a missing thread id alone never causes the
early failure. -/
theorem send_reply_guards (original_email_data : EmailDetails) (http : SendHttp) :
    ((truthy original_email_data.sender = false ∨
        truthy original_email_data.message_id_header = false) →
      send_reply original_email_data http = ⟨false, 0, none⟩) ∧
    (truthy original_email_data.sender = true →
      truthy original_email_data.message_id_header = true →
      (send_reply original_email_data http).attempts = 1) := by
  constructor
  · rintro (h | h)
    · simp [send_reply, h]
    · by_cases hs : truthy original_email_data.sender = false
      · simp [send_reply, hs]
      · simp only [Bool.not_eq_false] at hs
        simp only [send_reply, hs, h]
        cases http <;> rfl
  · intro hs hm
    simp only [send_reply, hs, hm]
    cases http <;> rfl

/-- Closed instance of C10: a record with no sender fails early with no
send; a record with sender and Message-ID header but no thread id still
attempts the send. -/
theorem send_reply_guards_witness :
    send_reply ⟨"m1", some "t1", none, some "Hi", "body", some "<id@x>"⟩ SendHttp.success =
      ⟨false, 0, none⟩ ∧
    (send_reply ⟨"m1", none, some "Alice <a@b.c>", some "Hi", "body", some "<id@x>"⟩
      SendHttp.success).attempts = 1 :=
  ⟨(send_reply_guards ⟨"m1", some "t1", none, some "Hi", "body", some "<id@x>"⟩
      SendHttp.success).1 (Or.inl rfl),
   (send_reply_guards ⟨"m1", none, some "Alice <a@b.c>", some "Hi", "body", some "<id@x>"⟩
      SendHttp.success).2 rfl rfl⟩

/-! ## `processing_service.py` — the intake dispatcher -/

/-- The oracle inputs one dispatch cycle can consume: the unread
listing (each summary's optional `id`), the fetched details, and the
results of the downstream service calls, in the order
`process_pubsub_message` makes them. -/
structure DispatchEnv where
  unread : List (Option String)
  details : Option EmailDetails
  classification : Option String
  searchParams : Option Params
  searchItems : List CatalogItem
  sufficient : Bool
  responseText : Option String
  sendSuccess : Bool
  forwardSuccess : Bool

/-- Terminal disposition of one dispatch cycle. -/
inductive DispatchOutcome where
  | noUnread
  | noId
  | fetchFailed
  | skippedEmpty
  | markedSpam
  | replied
  | sendFailed
  | genFailed
  | escalated (delivered : Bool)
deriving DecidableEq, Repr

/-- `process_pubsub_message(pubsub_message_data, gmail_service_client)`
(`processing_service.py` lines 9-150), past the JSON decode of the
notification payload.  Returns the outcome of the cycle together with
whether `mark_as_read` was invoked. -/
def process_pubsub_message (env : DispatchEnv) : DispatchOutcome × Bool :=
  match env.unread with
  | [] => (.noUnread, false)
  | mid :: _ =>
    match mid with
    | none => (.noId, false)
    | some _ =>
      match env.details with
      | none => (.fetchFailed, false)
      | some d =>
        if d.body = "" then (.skippedEmpty, true)
        else if env.classification = some "SPAM" then (.markedSpam, true)
        else if env.classification = some "PROCESS" then
          match env.searchParams with
          | none => (.escalated env.forwardSuccess, env.forwardSuccess)
          | some ps =>
            if ps.isEmpty ∨ hasKey ps "q" = false then
              (.escalated env.forwardSuccess, env.forwardSuccess)
            else if env.searchItems.isEmpty = false then
              if env.sufficient then
                match env.responseText with
                | some t =>
                  if t ≠ "" then
                    if env.sendSuccess then (.replied, true) else (.sendFailed, false)
                  else (.genFailed, false)
                | none => (.genFailed, false)
              else (.escalated env.forwardSuccess, env.forwardSuccess)
            else (.escalated env.forwardSuccess, env.forwardSuccess)
        else (.escalated env.forwardSuccess, env.forwardSuccess)

/-- C1: across every dispatch cycle, `mark_as_read` is invoked exactly
when the outcome is `replied`, `markedSpam`, `skippedEmpty`, or an
escalation whose chat delivery succeeded; in particular a failed reply
generation, a failed reply send, or a failed escalation delivery never
marks the message read. -/
theorem process_pubsub_message_mark_iff (env : DispatchEnv) :
    (process_pubsub_message env).2 = true ↔
      ((process_pubsub_message env).1 = DispatchOutcome.replied ∨
       (process_pubsub_message env).1 = DispatchOutcome.markedSpam ∨
       (process_pubsub_message env).1 = DispatchOutcome.skippedEmpty ∨
       (process_pubsub_message env).1 = DispatchOutcome.escalated true) := by
  unfold process_pubsub_message
  rcases env with ⟨unread, details, classification, searchParams, searchItems,
    sufficient, responseText, sendSuccess, forwardSuccess⟩
  rcases unread with _ | ⟨mid, rest⟩
  · simp
  rcases mid with _ | mid
  · simp
  rcases details with _ | d
  · simp
  simp only
  split
  · simp
  split
  · simp
  split
  · rcases searchParams with _ | ps
    · cases forwardSuccess <;> simp
    simp only
    split
    · cases forwardSuccess <;> simp
    split
    · split
      · rcases responseText with _ | t
        · simp
        simp only
        split
        · split <;> simp
        · simp
      · cases forwardSuccess <;> simp
    · cases forwardSuccess <;> simp
  · cases forwardSuccess <;> simp
